import Mathlib

/-!
Shallow embedding of `FramelessWindow/frameless_window.py`: the frameless
window's resize-edge detection and cursor mapping, the mouse-press resize
dispatch, the frameless dialog's nested-event-loop `exec` lifecycle with
result codes, the Tab focus trap, `setAppName` propagation, and the
Windows taskbar-grouping identifier. Machine coordinates are modelled as
`Int`, widget identities as `Nat`, and the Qt event loop as an explicit
list of dismissal events consumed by `exec`.
-/

namespace Frameless

/-- The fixed resize margin, `RESIZE_MARGIN = 8`. -/
def RESIZE_MARGIN : Int := 8

/-- A `Qt.Edges` flag set: which window edges are flagged. -/
structure Edges where
  left : Bool
  right : Bool
  top : Bool
  bottom : Bool
deriving DecidableEq, Repr

/-- The empty edge set, `Qt.Edges()`. -/
def Edges.empty : Edges := ⟨false, false, false, false⟩

/-- Number of edges flagged in an edge set. -/
def Edges.count (e : Edges) : Nat :=
  (cond e.left 1 0) + (cond e.right 1 0) + (cond e.top 1 0) + (cond e.bottom 1 0)

/-- The mouse cursor shapes used by `mouseMoveEvent` (`unset` is the default
cursor restored by `unsetCursor`). -/
inductive Cursor where
  | sizeHor
  | sizeVer
  | sizeFDiag
  | sizeBDiag
  | unset
deriving DecidableEq, Repr

/-- The edge set computed by the body of `FramelessWindow.mouseMoveEvent`
from the pointer position `(x, y)` and the window size `(w, h)`:
an edge is flagged when the pointer is within `RESIZE_MARGIN` of it. -/
def computeEdges (x y w h : Int) : Edges where
  left := decide (x ≤ RESIZE_MARGIN)
  right := decide (x ≥ w - RESIZE_MARGIN)
  top := decide (y ≤ RESIZE_MARGIN)
  bottom := decide (y ≥ h - RESIZE_MARGIN)

/-- The cursor chosen by `mouseMoveEvent` for a given edge set: the exact
membership tests `edges in (Qt.LeftEdge, Qt.RightEdge)` etc. of the source,
falling through to `unsetCursor` when no case matches. -/
def cursorFor (edges : Edges) : Cursor :=
  if edges = ⟨true, false, false, false⟩ ∨ edges = ⟨false, true, false, false⟩ then
    Cursor.sizeHor
  else if edges = ⟨false, false, true, false⟩ ∨ edges = ⟨false, false, false, true⟩ then
    Cursor.sizeVer
  else if edges = ⟨true, false, true, false⟩ ∨ edges = ⟨false, true, false, true⟩ then
    Cursor.sizeFDiag
  else if edges = ⟨false, true, true, false⟩ ∨ edges = ⟨true, false, false, true⟩ then
    Cursor.sizeBDiag
  else
    Cursor.unset

/-- The window state relevant to resize handling: the maximized flag, the
stored `_resize_edges`, and the current cursor shape. -/
structure WindowState where
  maximized : Bool
  resizeEdges : Edges
  cursor : Cursor
deriving DecidableEq, Repr

/-- `FramelessWindow.mouseMoveEvent`: when maximized, unset the cursor and
return early (the stored edge set is not touched); otherwise recompute the
edge set, store it, and set the matching cursor. -/
def mouseMoveEvent (s : WindowState) (x y w h : Int) : WindowState :=
  if s.maximized then
    { s with cursor := Cursor.unset }
  else
    let edges := computeEdges x y w h
    { s with resizeEdges := edges, cursor := cursorFor edges }

/-- `TitleBar.toggle_maximize`: set the window state to normal when
maximized, else to maximized. -/
def toggle_maximize (s : WindowState) : WindowState :=
  { s with maximized := !s.maximized }

/-- Mouse buttons as far as the handlers distinguish them. -/
inductive MouseButton where
  | left
  | other
deriving DecidableEq, Repr

/-- Outcome of `FramelessWindow.mousePressEvent`: either
`windowHandle().startSystemResize(edges)` was invoked, or the event fell
through to the default handler. -/
inductive PressAction where
  | startSystemResize (edges : Edges)
  | defaultHandling
deriving DecidableEq, Repr

/-- `FramelessWindow.mousePressEvent`: start the OS interactive resize iff
the press is with the left button, the stored edge set is truthy
(non-empty), and the window is not maximized. -/
def mousePressEvent (s : WindowState) (button : MouseButton) : PressAction :=
  if button = MouseButton.left ∧ s.resizeEdges ≠ Edges.empty ∧ s.maximized = false then
    PressAction.startSystemResize s.resizeEdges
  else
    PressAction.defaultHandling

/-- `DialogCode.REJECTED = 0`. -/
def DialogCode.REJECTED : Nat := 0

/-- `DialogCode.ACCEPTED = 1`. -/
def DialogCode.ACCEPTED : Nat := 1

/-- The dialog state relevant to `exec`: whether `_event_loop` is non-None,
the stored `_result`, the parent reference and the parent's enabled state,
the application's focused widget, the `_previous_focus` snapshot, and
visibility. Widgets are identified by `Nat`. -/
structure DialogState where
  eventLoopActive : Bool
  result : Nat
  hasParent : Bool
  parentEnabled : Bool
  focusWidget : Option Nat
  previousFocus : Option Nat
  visible : Bool
deriving DecidableEq, Repr

/-- `FramelessDialog.done`: record the result, hide the dialog, and emit
`finished` (which quits the nested loop). -/
def done (d : DialogState) (result : Nat) : DialogState :=
  { d with result := result, visible := false }

/-- `FramelessDialog.accept`: `done(ACCEPTED)`. -/
def accept (d : DialogState) : DialogState :=
  done d DialogCode.ACCEPTED

/-- `FramelessDialog.reject`: `done(REJECTED)`. -/
def reject (d : DialogState) : DialogState :=
  done d DialogCode.REJECTED

/-- `FramelessDialog.closeEvent`: call `reject` and accept the close. -/
def dialogCloseEvent (d : DialogState) : DialogState :=
  reject d

/-- A dismissal event delivered while the nested event loop runs. -/
inductive DialogEvent where
  | acceptEvent
  | rejectEvent
  | closeEvent
deriving DecidableEq, Repr

/-- Deliver one dismissal event to the dialog's handlers. -/
def dispatch (d : DialogState) : DialogEvent → DialogState
  | DialogEvent.acceptEvent => accept d
  | DialogEvent.rejectEvent => reject d
  | DialogEvent.closeEvent => dialogCloseEvent d

/-- `FramelessDialog.exec`: if the event loop already exists return the
stored result at once; otherwise disable the parent (if any), snapshot the
focused widget, create the loop, show the dialog, and block until the
first dismissal event quits the loop. Afterwards set the parent enabled,
restore focus to the snapshot if one was taken, drop the loop, and return
the result. `none` models an `exec` that never returns because no
dismissal ever arrives. -/
def exec (d : DialogState) (events : List DialogEvent) : Option (Nat × DialogState) :=
  if d.eventLoopActive then
    some (d.result, d)
  else
    let d1 : DialogState :=
      { d with
        parentEnabled := if d.hasParent then false else d.parentEnabled,
        previousFocus := d.focusWidget,
        eventLoopActive := true,
        visible := true }
    match events with
    | [] => none
    | e :: _ =>
      let d2 := dispatch d1 e
      let d3 : DialogState :=
        { d2 with
          parentEnabled := if d2.hasParent then true else d2.parentEnabled,
          focusWidget :=
            match d2.previousFocus with
            | some w => some w
            | Option.none => d2.focusWidget,
          eventLoopActive := false }
      some (d3.result, d3)

/-- The `Qt.Key_Tab` key code. -/
def Key_Tab : Nat := 16777217

/-- `FramelessDialog._focus_next`: collect the visible, focus-accepting
descendants (here given as the list `ws` of widget ids, in `findChildren`
order); if empty do nothing; if the focused widget is not among them give
focus to the first; otherwise step the index by one (backwards when
`reverse`), wrapping with Python's nonnegative modulo. -/
def focus_next (ws : List Nat) (focus : Option Nat) (reverse : Bool) : Option Nat :=
  if ws.isEmpty then
    focus
  else
    match focus with
    | Option.none => some (ws.getD 0 0)
    | some c =>
      if c ∈ ws then
        let idx : Int := ws.indexOf c
        let idx2 : Int := if reverse then idx - 1 else idx + 1
        some (ws.getD (idx2 % (ws.length : Int)).toNat 0)
      else
        some (ws.getD 0 0)

/-- `FramelessDialog.keyPressEvent`: intercept `Key_Tab` (cycling focus,
reversed when Shift is held) and accept the event; any other key falls
through to the default handler. Returns the new focus and whether the
event was intercepted. -/
def keyPressEvent (ws : List Nat) (focus : Option Nat) (key : Nat) (shift : Bool) :
    Option Nat × Bool :=
  if key = Key_Tab then
    (focus_next ws focus shift, true)
  else
    (focus, false)

/-- The title bar state `setTitle` touches: the visible label text. -/
structure TitleBarState where
  titleLabel : String
deriving DecidableEq, Repr

/-- `TitleBar.setTitle`: update the visible label. -/
def TitleBar.setTitle (tb : TitleBarState) (title : String) : TitleBarState :=
  { tb with titleLabel := title }

/-- The window state `setAppName` touches: `_app_name`, the window title,
the application (display) name, and the optionally attached title bar. -/
structure WindowAppState where
  appName : String
  windowTitle : String
  applicationName : String
  applicationDisplayName : String
  titleBar : Option TitleBarState
deriving DecidableEq, Repr

/-- `FramelessWindow.setAppName`: store the name, set the window title and
the application (display) names, and—when a title bar is attached—keep its
label in sync via `setTitle`. -/
def setAppName (s : WindowAppState) (name : String) : WindowAppState :=
  let s1 : WindowAppState :=
    { s with
      appName := name,
      windowTitle := name,
      applicationName := name,
      applicationDisplayName := name }
  match s1.titleBar with
  | some tb => { s1 with titleBar := some (TitleBar.setTitle tb name) }
  | Option.none => s1

/-- The deterministic taskbar-grouping identifier built by
`_apply_windows_app_id`: `com.projectironman.` followed by the app name
lowercased with spaces removed. -/
def windowsAppId (appName : String) : String :=
  "com.projectironman." ++ ((appName.toLower).replace " " "")

/-- `FramelessWindow._apply_windows_app_id`: a no-op unless the platform is
`win32`; otherwise build the identifier and hand it to the OS call, whose
failure is caught and discarded. Returns the identifier that was applied,
or `none` when the call was skipped. -/
def applyWindowsAppId (platform : String) (appName : String)
    (setProcessAppId : String → Except String Unit) : Option String :=
  if platform ≠ "win32" then
    Option.none
  else
    let app_id := windowsAppId appName
    match setProcessAppId app_id with
    | Except.ok _ => some app_id
    | Except.error _ => some app_id

/-- Claim C1: dismissing a run by `accept` makes the pending `exec` return
`ACCEPTED` (1); dismissing by `reject` makes it return `REJECTED` (0); and
dismissing through the window-manager close affordance (`closeEvent`) has
exactly the same effect on `exec` as `reject`. -/
theorem exec_result_codes (d : DialogState) (h : d.eventLoopActive = false) :
    (exec d [DialogEvent.acceptEvent]).map Prod.fst = some DialogCode.ACCEPTED ∧
    (exec d [DialogEvent.rejectEvent]).map Prod.fst = some DialogCode.REJECTED ∧
    exec d [DialogEvent.closeEvent] = exec d [DialogEvent.rejectEvent] := by
  refine ⟨?_, ?_, ?_⟩ <;>
    simp [exec, h, dispatch, accept, reject, dialogCloseEvent, done]

/-- Witness for C1 at a concrete idle dialog. -/
theorem exec_result_codes_witness :
    (exec ⟨false, 0, true, true, some 5, Option.none, false⟩ [DialogEvent.acceptEvent]).map
        Prod.fst = some DialogCode.ACCEPTED ∧
    (exec ⟨false, 0, true, true, some 5, Option.none, false⟩ [DialogEvent.rejectEvent]).map
        Prod.fst = some DialogCode.REJECTED ∧
    exec ⟨false, 0, true, true, some 5, Option.none, false⟩ [DialogEvent.closeEvent] =
      exec ⟨false, 0, true, true, some 5, Option.none, false⟩ [DialogEvent.rejectEvent] :=
  exec_result_codes ⟨false, 0, true, true, some 5, Option.none, false⟩ (by decide)

/-- Claim C2: calling `exec` while a run is in progress (the nested loop
exists) returns the stored result immediately and leaves the dialog state
untouched, so no second nested loop is ever created. -/
theorem exec_reentrant (d : DialogState) (events : List DialogEvent)
    (h : d.eventLoopActive = true) :
    exec d events = some (d.result, d) := by
  simp [exec, h]

/-- Witness for C2 at a concrete running dialog. -/
theorem exec_reentrant_witness :
    exec ⟨true, 1, true, false, Option.none, some 3, true⟩
        [DialogEvent.rejectEvent, DialogEvent.acceptEvent] =
      some (1, ⟨true, 1, true, false, Option.none, some 3, true⟩) :=
  exec_reentrant ⟨true, 1, true, false, Option.none, some 3, true⟩
    [DialogEvent.rejectEvent, DialogEvent.acceptEvent] (by decide)

/-- Counterexample to claim C3: a dialog whose parent is disabled before
`exec`. After dismissal the code sets the parent enabled unconditionally,
so the parent's enabled state does not round-trip. -/
theorem exec_parent_restore_counterexample :
    (⟨false, 0, true, false, some 7, Option.none, false⟩ : DialogState).parentEnabled = false ∧
    (exec ⟨false, 0, true, false, some 7, Option.none, false⟩
        [DialogEvent.acceptEvent]).map (fun p => p.2.parentEnabled) = some true := by
  constructor
  · rfl
  · rfl

/-- Claim C3 as amended: after a dialog with a parent is dismissed, the
parent is always left enabled — which equals its pre-`exec` state exactly
when the parent was enabled before the call — and the widget focused
before `exec` regains focus. -/
theorem exec_parent_focus_amended (d : DialogState) (e : DialogEvent)
    (h : d.eventLoopActive = false) (hp : d.hasParent = true) :
    (exec d [e]).map (fun p => p.2.parentEnabled) = some true ∧
    (d.parentEnabled = true →
      (exec d [e]).map (fun p => p.2.parentEnabled) = some d.parentEnabled) ∧
    (∀ w, d.focusWidget = some w →
      (exec d [e]).map (fun p => p.2.focusWidget) = some (some w)) := by
  cases e <;>
    simp_all [exec, dispatch, accept, reject, dialogCloseEvent, done]

/-- Witness for amended C3 at a concrete dialog with an enabled parent and
a focused widget. -/
theorem exec_parent_focus_amended_witness :
    (exec ⟨false, 0, true, true, some 9, Option.none, false⟩
        [DialogEvent.closeEvent]).map (fun p => p.2.parentEnabled) = some true ∧
    ((⟨false, 0, true, true, some 9, Option.none, false⟩ : DialogState).parentEnabled = true →
      (exec ⟨false, 0, true, true, some 9, Option.none, false⟩
          [DialogEvent.closeEvent]).map (fun p => p.2.parentEnabled) =
        some (⟨false, 0, true, true, some 9, Option.none, false⟩ : DialogState).parentEnabled) ∧
    (∀ w, (⟨false, 0, true, true, some 9, Option.none, false⟩ : DialogState).focusWidget = some w →
      (exec ⟨false, 0, true, true, some 9, Option.none, false⟩
          [DialogEvent.closeEvent]).map (fun p => p.2.focusWidget) = some (some w)) :=
  exec_parent_focus_amended ⟨false, 0, true, true, some 9, Option.none, false⟩
    DialogEvent.closeEvent (by decide) (by decide)

/-- Counterexample to claim C4: move the pointer into the top-left corner
of a normal 400×400 window (storing the top-left edge pair), maximize, and
move the pointer to the window's center. The window is maximized, yet the
stored resize-edge set is still the top-left pair, not empty: the
maximized branch of `mouseMoveEvent` returns before recomputing it. -/
theorem maximized_edges_counterexample :
    (mouseMoveEvent
        (toggle_maximize
          (mouseMoveEvent ⟨false, Edges.empty, Cursor.unset⟩ 0 0 400 400))
        200 200 400 400).maximized = true ∧
    (mouseMoveEvent
        (toggle_maximize
          (mouseMoveEvent ⟨false, Edges.empty, Cursor.unset⟩ 0 0 400 400))
        200 200 400 400).resizeEdges ≠ Edges.empty := by
  constructor
  · rfl
  · decide

/-- Claim C4 as amended: while maximized, a pointer-move only resets the
cursor and leaves the stored edge set unchanged (it is not recomputed);
when not maximized, the edge set is recomputed from the pointer position
on every pointer-move. -/
theorem mouseMove_edges_amended (s : WindowState) (x y w h : Int) :
    (s.maximized = true →
      (mouseMoveEvent s x y w h).resizeEdges = s.resizeEdges ∧
      (mouseMoveEvent s x y w h).cursor = Cursor.unset) ∧
    (s.maximized = false →
      (mouseMoveEvent s x y w h).resizeEdges = computeEdges x y w h) := by
  constructor <;> intro hm <;> simp [mouseMoveEvent, hm]

/-- Witness for amended C4 at a concrete maximized window. -/
theorem mouseMove_edges_amended_witness :
    ((⟨true, ⟨true, false, true, false⟩, Cursor.sizeFDiag⟩ : WindowState).maximized = true →
      (mouseMoveEvent ⟨true, ⟨true, false, true, false⟩, Cursor.sizeFDiag⟩
          200 200 400 400).resizeEdges =
        (⟨true, ⟨true, false, true, false⟩, Cursor.sizeFDiag⟩ : WindowState).resizeEdges ∧
      (mouseMoveEvent ⟨true, ⟨true, false, true, false⟩, Cursor.sizeFDiag⟩
          200 200 400 400).cursor = Cursor.unset) ∧
    ((⟨true, ⟨true, false, true, false⟩, Cursor.sizeFDiag⟩ : WindowState).maximized = false →
      (mouseMoveEvent ⟨true, ⟨true, false, true, false⟩, Cursor.sizeFDiag⟩
          200 200 400 400).resizeEdges = computeEdges 200 200 400 400) :=
  mouseMove_edges_amended ⟨true, ⟨true, false, true, false⟩, Cursor.sizeFDiag⟩ 200 200 400 400

/-- Claim C6: `mousePressEvent` starts the OS interactive resize iff the
press is with the left button, the stored edge set is non-empty, and the
window is not maximized; the resize is started for exactly the stored
edge set; in every other case the press falls through to the default
handler — in particular never while maximized. -/
theorem mousePress_resize_iff (s : WindowState) (button : MouseButton) :
    ((∃ e, mousePressEvent s button = PressAction.startSystemResize e) ↔
      (button = MouseButton.left ∧ s.resizeEdges ≠ Edges.empty ∧ s.maximized = false)) ∧
    (∀ e, mousePressEvent s button = PressAction.startSystemResize e → e = s.resizeEdges) ∧
    (¬(button = MouseButton.left ∧ s.resizeEdges ≠ Edges.empty ∧ s.maximized = false) →
      mousePressEvent s button = PressAction.defaultHandling) ∧
    (s.maximized = true → mousePressEvent s button = PressAction.defaultHandling) := by
  unfold mousePressEvent
  by_cases hc : button = MouseButton.left ∧ s.resizeEdges ≠ Edges.empty ∧ s.maximized = false
  · simp [hc]
  · have hmax : s.maximized = true → ¬(button = MouseButton.left ∧
        s.resizeEdges ≠ Edges.empty ∧ s.maximized = false) := by
      intro hm hx
      rw [hm] at hx
      exact Bool.true_eq_false.mp hx.2.2
    simp [hc]

/-- Witness for C6 at a concrete non-maximized window with the left edge
stored, pressed with the left button. -/
theorem mousePress_resize_iff_witness :
    ((∃ e, mousePressEvent ⟨false, ⟨true, false, false, false⟩, Cursor.sizeHor⟩
          MouseButton.left = PressAction.startSystemResize e) ↔
      (MouseButton.left = MouseButton.left ∧
        (⟨false, ⟨true, false, false, false⟩, Cursor.sizeHor⟩ : WindowState).resizeEdges ≠
          Edges.empty ∧
        (⟨false, ⟨true, false, false, false⟩, Cursor.sizeHor⟩ : WindowState).maximized = false)) ∧
    (∀ e, mousePressEvent ⟨false, ⟨true, false, false, false⟩, Cursor.sizeHor⟩
          MouseButton.left = PressAction.startSystemResize e →
        e = (⟨false, ⟨true, false, false, false⟩, Cursor.sizeHor⟩ : WindowState).resizeEdges) ∧
    (¬(MouseButton.left = MouseButton.left ∧
        (⟨false, ⟨true, false, false, false⟩, Cursor.sizeHor⟩ : WindowState).resizeEdges ≠
          Edges.empty ∧
        (⟨false, ⟨true, false, false, false⟩, Cursor.sizeHor⟩ : WindowState).maximized = false) →
      mousePressEvent ⟨false, ⟨true, false, false, false⟩, Cursor.sizeHor⟩
          MouseButton.left = PressAction.defaultHandling) ∧
    ((⟨false, ⟨true, false, false, false⟩, Cursor.sizeHor⟩ : WindowState).maximized = true →
      mousePressEvent ⟨false, ⟨true, false, false, false⟩, Cursor.sizeHor⟩
          MouseButton.left = PressAction.defaultHandling) :=
  mousePress_resize_iff ⟨false, ⟨true, false, false, false⟩, Cursor.sizeHor⟩ MouseButton.left

/-- Claim C5: on a non-maximized window the stored edge set and cursor
come from the pointer position: within the margin of exactly one edge the
set is that singleton and the cursor is the matching directional shape;
within the margins of exactly two adjacent edges the set is that corner
pair and the cursor the matching diagonal; outside all margins the set is
empty and the cursor default; and with three or more edges flagged the
mapping falls through to no cursor. -/
theorem edge_cursor_mapping (s : WindowState) (x y w h : Int)
    (hm : s.maximized = false) :
    (mouseMoveEvent s x y w h).resizeEdges = computeEdges x y w h ∧
    (mouseMoveEvent s x y w h).cursor = cursorFor (computeEdges x y w h) ∧
    ((x ≤ RESIZE_MARGIN ∧ ¬(x ≥ w - RESIZE_MARGIN) ∧ ¬(y ≤ RESIZE_MARGIN) ∧
        ¬(y ≥ h - RESIZE_MARGIN)) →
      computeEdges x y w h = ⟨true, false, false, false⟩ ∧
      cursorFor (computeEdges x y w h) = Cursor.sizeHor) ∧
    ((¬(x ≤ RESIZE_MARGIN) ∧ x ≥ w - RESIZE_MARGIN ∧ ¬(y ≤ RESIZE_MARGIN) ∧
        ¬(y ≥ h - RESIZE_MARGIN)) →
      computeEdges x y w h = ⟨false, true, false, false⟩ ∧
      cursorFor (computeEdges x y w h) = Cursor.sizeHor) ∧
    ((¬(x ≤ RESIZE_MARGIN) ∧ ¬(x ≥ w - RESIZE_MARGIN) ∧ y ≤ RESIZE_MARGIN ∧
        ¬(y ≥ h - RESIZE_MARGIN)) →
      computeEdges x y w h = ⟨false, false, true, false⟩ ∧
      cursorFor (computeEdges x y w h) = Cursor.sizeVer) ∧
    ((¬(x ≤ RESIZE_MARGIN) ∧ ¬(x ≥ w - RESIZE_MARGIN) ∧ ¬(y ≤ RESIZE_MARGIN) ∧
        y ≥ h - RESIZE_MARGIN) →
      computeEdges x y w h = ⟨false, false, false, true⟩ ∧
      cursorFor (computeEdges x y w h) = Cursor.sizeVer) ∧
    ((x ≤ RESIZE_MARGIN ∧ ¬(x ≥ w - RESIZE_MARGIN) ∧ y ≤ RESIZE_MARGIN ∧
        ¬(y ≥ h - RESIZE_MARGIN)) →
      computeEdges x y w h = ⟨true, false, true, false⟩ ∧
      cursorFor (computeEdges x y w h) = Cursor.sizeFDiag) ∧
    ((¬(x ≤ RESIZE_MARGIN) ∧ x ≥ w - RESIZE_MARGIN ∧ ¬(y ≤ RESIZE_MARGIN) ∧
        y ≥ h - RESIZE_MARGIN) →
      computeEdges x y w h = ⟨false, true, false, true⟩ ∧
      cursorFor (computeEdges x y w h) = Cursor.sizeFDiag) ∧
    ((¬(x ≤ RESIZE_MARGIN) ∧ x ≥ w - RESIZE_MARGIN ∧ y ≤ RESIZE_MARGIN ∧
        ¬(y ≥ h - RESIZE_MARGIN)) →
      computeEdges x y w h = ⟨false, true, true, false⟩ ∧
      cursorFor (computeEdges x y w h) = Cursor.sizeBDiag) ∧
    ((x ≤ RESIZE_MARGIN ∧ ¬(x ≥ w - RESIZE_MARGIN) ∧ ¬(y ≤ RESIZE_MARGIN) ∧
        y ≥ h - RESIZE_MARGIN) →
      computeEdges x y w h = ⟨true, false, false, true⟩ ∧
      cursorFor (computeEdges x y w h) = Cursor.sizeBDiag) ∧
    ((¬(x ≤ RESIZE_MARGIN) ∧ ¬(x ≥ w - RESIZE_MARGIN) ∧ ¬(y ≤ RESIZE_MARGIN) ∧
        ¬(y ≥ h - RESIZE_MARGIN)) →
      computeEdges x y w h = Edges.empty ∧
      cursorFor (computeEdges x y w h) = Cursor.unset) ∧
    (3 ≤ (computeEdges x y w h).count →
      cursorFor (computeEdges x y w h) = Cursor.unset) := by
  refine ⟨by simp [mouseMoveEvent, hm], by simp [mouseMoveEvent, hm], ?_⟩
  by_cases h1 : x ≤ RESIZE_MARGIN <;>
    by_cases h2 : x ≥ w - RESIZE_MARGIN <;>
      by_cases h3 : y ≤ RESIZE_MARGIN <;>
        by_cases h4 : y ≥ h - RESIZE_MARGIN <;>
          simp [computeEdges, cursorFor, Edges.empty, Edges.count, h1, h2, h3, h4]

/-- Witness for C5: a pointer in the top-left corner of a normal 400×400
window. -/
theorem edge_cursor_mapping_witness :
    (mouseMoveEvent ⟨false, Edges.empty, Cursor.unset⟩ 3 3 400 400).resizeEdges =
        computeEdges 3 3 400 400 ∧
    (mouseMoveEvent ⟨false, Edges.empty, Cursor.unset⟩ 3 3 400 400).cursor =
        cursorFor (computeEdges 3 3 400 400) ∧
    (((3 : Int) ≤ RESIZE_MARGIN ∧ ¬((3 : Int) ≥ 400 - RESIZE_MARGIN) ∧
        ¬((3 : Int) ≤ RESIZE_MARGIN) ∧ ¬((3 : Int) ≥ 400 - RESIZE_MARGIN)) →
      computeEdges 3 3 400 400 = ⟨true, false, false, false⟩ ∧
      cursorFor (computeEdges 3 3 400 400) = Cursor.sizeHor) ∧
    ((¬((3 : Int) ≤ RESIZE_MARGIN) ∧ (3 : Int) ≥ 400 - RESIZE_MARGIN ∧
        ¬((3 : Int) ≤ RESIZE_MARGIN) ∧ ¬((3 : Int) ≥ 400 - RESIZE_MARGIN)) →
      computeEdges 3 3 400 400 = ⟨false, true, false, false⟩ ∧
      cursorFor (computeEdges 3 3 400 400) = Cursor.sizeHor) ∧
    ((¬((3 : Int) ≤ RESIZE_MARGIN) ∧ ¬((3 : Int) ≥ 400 - RESIZE_MARGIN) ∧
        (3 : Int) ≤ RESIZE_MARGIN ∧ ¬((3 : Int) ≥ 400 - RESIZE_MARGIN)) →
      computeEdges 3 3 400 400 = ⟨false, false, true, false⟩ ∧
      cursorFor (computeEdges 3 3 400 400) = Cursor.sizeVer) ∧
    ((¬((3 : Int) ≤ RESIZE_MARGIN) ∧ ¬((3 : Int) ≥ 400 - RESIZE_MARGIN) ∧
        ¬((3 : Int) ≤ RESIZE_MARGIN) ∧ (3 : Int) ≥ 400 - RESIZE_MARGIN) →
      computeEdges 3 3 400 400 = ⟨false, false, false, true⟩ ∧
      cursorFor (computeEdges 3 3 400 400) = Cursor.sizeVer) ∧
    (((3 : Int) ≤ RESIZE_MARGIN ∧ ¬((3 : Int) ≥ 400 - RESIZE_MARGIN) ∧
        (3 : Int) ≤ RESIZE_MARGIN ∧ ¬((3 : Int) ≥ 400 - RESIZE_MARGIN)) →
      computeEdges 3 3 400 400 = ⟨true, false, true, false⟩ ∧
      cursorFor (computeEdges 3 3 400 400) = Cursor.sizeFDiag) ∧
    ((¬((3 : Int) ≤ RESIZE_MARGIN) ∧ (3 : Int) ≥ 400 - RESIZE_MARGIN ∧
        ¬((3 : Int) ≤ RESIZE_MARGIN) ∧ (3 : Int) ≥ 400 - RESIZE_MARGIN) →
      computeEdges 3 3 400 400 = ⟨false, true, false, true⟩ ∧
      cursorFor (computeEdges 3 3 400 400) = Cursor.sizeFDiag) ∧
    ((¬((3 : Int) ≤ RESIZE_MARGIN) ∧ (3 : Int) ≥ 400 - RESIZE_MARGIN ∧
        (3 : Int) ≤ RESIZE_MARGIN ∧ ¬((3 : Int) ≥ 400 - RESIZE_MARGIN)) →
      computeEdges 3 3 400 400 = ⟨false, true, true, false⟩ ∧
      cursorFor (computeEdges 3 3 400 400) = Cursor.sizeBDiag) ∧
    (((3 : Int) ≤ RESIZE_MARGIN ∧ ¬((3 : Int) ≥ 400 - RESIZE_MARGIN) ∧
        ¬((3 : Int) ≤ RESIZE_MARGIN) ∧ (3 : Int) ≥ 400 - RESIZE_MARGIN) →
      computeEdges 3 3 400 400 = ⟨true, false, false, true⟩ ∧
      cursorFor (computeEdges 3 3 400 400) = Cursor.sizeBDiag) ∧
    ((¬((3 : Int) ≤ RESIZE_MARGIN) ∧ ¬((3 : Int) ≥ 400 - RESIZE_MARGIN) ∧
        ¬((3 : Int) ≤ RESIZE_MARGIN) ∧ ¬((3 : Int) ≥ 400 - RESIZE_MARGIN)) →
      computeEdges 3 3 400 400 = Edges.empty ∧
      cursorFor (computeEdges 3 3 400 400) = Cursor.unset) ∧
    (3 ≤ (computeEdges 3 3 400 400).count →
      cursorFor (computeEdges 3 3 400 400) = Cursor.unset) :=
  edge_cursor_mapping ⟨false, Edges.empty, Cursor.unset⟩ 3 3 400 400 rfl

/-- Claim C8: `setAppName s name` sets the window title (and application
names) to `name`; when a title bar is attached its visible label becomes
`name`; when none is attached the call completes, is total, and leaves the
title bar absent. -/
theorem setAppName_spec (s : WindowAppState) (name : String) :
    (setAppName s name).windowTitle = name ∧
    (setAppName s name).applicationName = name ∧
    (setAppName s name).applicationDisplayName = name ∧
    (∀ tb, s.titleBar = some tb →
      (setAppName s name).titleBar = some (TitleBar.setTitle tb name)) ∧
    (s.titleBar = Option.none → (setAppName s name).titleBar = Option.none) := by
  unfold setAppName TitleBar.setTitle
  cases htb : s.titleBar <;> simp [htb]

/-- Witness for C8: once with a title bar attached, once without. -/
theorem setAppName_spec_witness :
    (setAppName ⟨"Old", "Old", "Old", "Old", some ⟨"Old"⟩⟩ "New Name").windowTitle =
        "New Name" ∧
    (setAppName ⟨"Old", "Old", "Old", "Old", Option.none⟩ "New Name").titleBar =
        Option.none ∧
    (setAppName ⟨"Old", "Old", "Old", "Old", some ⟨"Old"⟩⟩ "New Name").titleBar =
        some ⟨"New Name"⟩ := by
  refine ⟨(setAppName_spec ⟨"Old", "Old", "Old", "Old", some ⟨"Old"⟩⟩ "New Name").1,
    (setAppName_spec ⟨"Old", "Old", "Old", "Old", Option.none⟩ "New Name").2.2.2.2 rfl,
    ?_⟩
  exact (setAppName_spec ⟨"Old", "Old", "Old", "Old", some ⟨"Old"⟩⟩
    "New Name").2.2.2.1 ⟨"Old"⟩ rfl

/-- Claim C9: on `win32` the taskbar-grouping identifier applied is
exactly `com.projectironman.` followed by the name lowercased with spaces
removed; on any other platform the operation is a no-op; and the outcome
is the same whatever the underlying platform call does — its failure is
swallowed, never propagated. -/
theorem windows_app_id_spec (name : String) (f : String → Except String Unit) :
    applyWindowsAppId "win32" name f =
      some ("com.projectironman." ++ ((name.toLower).replace " " "")) ∧
    (∀ p, p ≠ "win32" → applyWindowsAppId p name f = Option.none) ∧
    (∀ p g, applyWindowsAppId p name f = applyWindowsAppId p name g) := by
  have hgen : ∀ k : String → Except String Unit,
      applyWindowsAppId "win32" name k = some (windowsAppId name) := by
    intro k
    unfold applyWindowsAppId
    rw [if_neg (by simp)]
    show (match k (windowsAppId name) with
      | Except.ok _ => some (windowsAppId name)
      | Except.error _ => some (windowsAppId name)) = some (windowsAppId name)
    split <;> rfl
  refine ⟨hgen f, ?_, ?_⟩
  · intro p hp
    simp [applyWindowsAppId, hp]
  · intro p g
    by_cases hp : p = "win32"
    · subst hp
      rw [hgen f, hgen g]
    · simp [applyWindowsAppId, hp]

/-- Witness for C9 at a concrete name, a failing platform call, and a
non-win32 platform. -/
theorem windows_app_id_spec_witness :
    applyWindowsAppId "win32" "My App" (fun _ => Except.error "boom") =
      some ("com.projectironman." ++ (("My App".toLower).replace " " "")) ∧
    applyWindowsAppId "linux" "My App" (fun _ => Except.error "boom") = Option.none ∧
    applyWindowsAppId "win32" "My App" (fun _ => Except.error "boom") =
      applyWindowsAppId "win32" "My App" (fun _ => Except.ok ()) := by
  refine ⟨(windows_app_id_spec "My App" (fun _ => Except.error "boom")).1,
    (windows_app_id_spec "My App" (fun _ => Except.error "boom")).2.1 "linux" (by decide),
    (windows_app_id_spec "My App" (fun _ => Except.error "boom")).2.2 "win32"
      (fun _ => Except.ok ())⟩

/-- An in-bounds `getD` is a member of the list. -/
theorem getD_mem_of_lt (ws : List Nat) (j : Nat) (hj : j < ws.length) :
    ws.getD j 0 ∈ ws := by
  rw [List.getD_eq_getElem ws 0 hj]
  exact List.getElem_mem hj

/-- A non-empty list has `isEmpty = false`. -/
theorem isEmpty_false_of_ne_nil (ws : List Nat) (hne : ws ≠ []) :
    ws.isEmpty = false := by
  cases ws with
  | nil => exact absurd rfl hne
  | cons a t => rfl

/-- Stepping the focus forward from the element at index `i` lands on the
element at index `(i + 1) % length`. -/
theorem focus_next_forward_step (ws : List Nat) (hnd : ws.Nodup) (i : Nat)
    (hi : i < ws.length) :
    focus_next ws (some (ws.getD i 0)) false =
      some (ws.getD ((i + 1) % ws.length) 0) := by
  have hne : ws ≠ [] := List.ne_nil_of_length_pos (by omega)
  have hempty : ws.isEmpty = false := isEmpty_false_of_ne_nil ws hne
  have hgd : ws.getD i 0 = ws[i] := List.getD_eq_getElem ws 0 hi
  have hmem : ws.getD i 0 ∈ ws := by
    rw [hgd]
    exact List.getElem_mem hi
  have hidx : ws.indexOf (ws.getD i 0) = i := by
    rw [hgd]
    exact List.indexOf_getElem hnd i hi
  have hcast : (((ws.indexOf (ws.getD i 0) : Int) + 1) % (ws.length : Int)).toNat =
      (i + 1) % ws.length := by
    rw [hidx]
    have h5 : ((i : Int) + 1) % (ws.length : Int) = (((i + 1) % ws.length : Nat) : Int) := by
      push_cast
      ring_nf
    rw [h5, Int.toNat_natCast]
  simp only [focus_next, hempty, Bool.false_eq_true, if_false, hmem, if_true, hcast]

/-- Stepping the focus backwards from the first element lands on the last
index, `length - 1`. -/
theorem focus_next_reverse_first (ws : List Nat) (hnd : ws.Nodup) (hne : ws ≠ []) :
    focus_next ws (some (ws.getD 0 0)) true = some (ws.getD (ws.length - 1) 0) := by
  have hlen : 0 < ws.length := List.length_pos.mpr hne
  have hempty : ws.isEmpty = false := isEmpty_false_of_ne_nil ws hne
  have hgd : ws.getD 0 0 = ws[0] := List.getD_eq_getElem ws 0 hlen
  have hmem : ws.getD 0 0 ∈ ws := by
    rw [hgd]
    exact List.getElem_mem hlen
  have hidx : ws.indexOf (ws.getD 0 0) = 0 := by
    rw [hgd]
    exact List.indexOf_getElem hnd 0 hlen
  have hcast : (((ws.indexOf (ws.getD 0 0) : Int) - 1) % (ws.length : Int)).toNat =
      ws.length - 1 := by
    rw [hidx]
    have h1 : ((0 : Nat) : Int) - 1 =
        ((ws.length : Int) - 1) + (ws.length : Int) * (-1) := by
      ring
    rw [h1, Int.add_mul_emod_self_left,
      Int.emod_eq_of_lt (by omega) (by omega)]
    omega
  simp only [focus_next, hempty, Bool.false_eq_true, if_false, hmem, if_true, hcast]

/-- Iterating the forward focus step `k` times from the first element lands
on index `k % length`. -/
theorem focus_next_iterate_forward (ws : List Nat) (hnd : ws.Nodup) (hne : ws ≠ [])
    (k : Nat) :
    Nat.iterate (fun f => focus_next ws f false) k (some (ws.getD 0 0)) =
      some (ws.getD (k % ws.length) 0) := by
  induction k with
  | zero =>
    rw [Function.iterate_zero_apply, Nat.zero_mod]
  | succ k ih =>
    rw [Function.iterate_succ_apply', ih]
    have hlt : k % ws.length < ws.length := Nat.mod_lt _ (List.length_pos.mpr hne)
    rw [focus_next_forward_step ws hnd (k % ws.length) hlt, Nat.mod_add_mod]

/-- Whatever the starting focus, the result of a focus step on a
non-empty widget list is a widget of the list. -/
theorem focus_next_mem (ws : List Nat) (hne : ws ≠ []) (f : Option Nat)
    (shift : Bool) (w : Nat) (h : focus_next ws f shift = some w) : w ∈ ws := by
  have hlen : 0 < ws.length := List.length_pos.mpr hne
  have hempty : ws.isEmpty = false := isEmpty_false_of_ne_nil ws hne
  cases f with
  | none =>
    simp only [focus_next, hempty, Bool.false_eq_true, if_false,
      Option.some.injEq] at h
    rw [← h]
    exact getD_mem_of_lt ws 0 hlen
  | some c =>
    by_cases hc : c ∈ ws
    · simp only [focus_next, hempty, Bool.false_eq_true, if_false, hc, if_true,
        Option.some.injEq] at h
      rw [← h]
      refine getD_mem_of_lt ws _ ?_
      have h0 : (0 : Int) < (ws.length : Int) := by omega
      have hnn : 0 ≤ ((if shift then (ws.indexOf c : Int) - 1 else (ws.indexOf c : Int) + 1) %
          (ws.length : Int)) := Int.emod_nonneg _ (by omega)
      have hub : ((if shift then (ws.indexOf c : Int) - 1 else (ws.indexOf c : Int) + 1) %
          (ws.length : Int)) < (ws.length : Int) := Int.emod_lt_of_pos _ h0
      omega
    · simp only [focus_next, hempty, Bool.false_eq_true, if_false, hc,
        Option.some.injEq] at h
      rw [← h]
      exact getD_mem_of_lt ws 0 hlen

/-- Claim C7: with `N ≥ 1` visible focus-accepting descendants and focus
on the first, `N` Tab presses return focus to the first widget; one
Shift+Tab press from the first moves focus to the last; and a Tab press
never moves focus outside the dialog's own descendant list. -/
theorem focus_trap_cycling (ws : List Nat) (hne : ws ≠ []) (hnd : ws.Nodup) :
    Nat.iterate (fun f => (keyPressEvent ws f Key_Tab false).1) ws.length
        (some (ws.getD 0 0)) = some (ws.getD 0 0) ∧
    (keyPressEvent ws (some (ws.getD 0 0)) Key_Tab true).1 = some (ws.getLast hne) ∧
    (∀ f w shift, (keyPressEvent ws f Key_Tab shift).1 = some w → w ∈ ws) := by
  have hk : ∀ (f : Option Nat) (shift : Bool),
      (keyPressEvent ws f Key_Tab shift).1 = focus_next ws f shift := by
    intro f shift
    rfl
  have hlen : 0 < ws.length := List.length_pos.mpr hne
  refine ⟨?_, ?_, ?_⟩
  · have hfun : (fun f => (keyPressEvent ws f Key_Tab false).1) =
        (fun f => focus_next ws f false) := by
      funext f
      exact hk f false
    rw [hfun, focus_next_iterate_forward ws hnd hne ws.length, Nat.mod_self]
  · rw [hk, focus_next_reverse_first ws hnd hne]
    have hlast : ws.getD (ws.length - 1) 0 = ws.getLast hne := by
      rw [List.getD_eq_getElem ws 0 (by omega), List.getLast_eq_getElem]
    rw [hlast]
  · intro f w shift h
    rw [hk] at h
    exact focus_next_mem ws hne f shift w h

/-- Witness for C7 on the three-widget list `[10, 20, 30]`. -/
theorem focus_trap_cycling_witness :
    Nat.iterate (fun f => (keyPressEvent [10, 20, 30] f Key_Tab false).1)
        ([10, 20, 30] : List Nat).length
        (some (([10, 20, 30] : List Nat).getD 0 0)) =
      some (([10, 20, 30] : List Nat).getD 0 0) ∧
    (keyPressEvent [10, 20, 30] (some (([10, 20, 30] : List Nat).getD 0 0))
        Key_Tab true).1 = some (([10, 20, 30] : List Nat).getLast (by decide)) ∧
    (∀ f w shift, (keyPressEvent [10, 20, 30] f Key_Tab shift).1 = some w →
      w ∈ ([10, 20, 30] : List Nat)) :=
  focus_trap_cycling [10, 20, 30] (by decide) (by decide)

/-- Claim C10: when the focused widget is not among the dialog's visible
focus-accepting descendants (including when nothing has focus), a focus
step gives focus to the first descendant, in either direction; and with no
descendants at all the step changes nothing. -/
theorem focus_next_fallback (ws : List Nat) (focus : Option Nat) (shift : Bool) :
    (ws = [] → focus_next ws focus shift = focus) ∧
    (ws ≠ [] → (∀ c, focus = some c → c ∉ ws) →
      focus_next ws focus shift = some (ws.getD 0 0)) := by
  constructor
  · intro h
    subst h
    rfl
  · intro hne hmem
    have hempty : ws.isEmpty = false := isEmpty_false_of_ne_nil ws hne
    cases focus with
    | none => simp [focus_next, hempty]
    | some c =>
      have hc : c ∉ ws := hmem c rfl
      simp [focus_next, hempty, hc]

/-- Witness for C10: an out-of-list focus on `[10, 20, 30]`, and the empty
widget list. -/
theorem focus_next_fallback_witness :
    (([10, 20, 30] : List Nat) = [] →
      focus_next [10, 20, 30] (some 99) true = some 99) ∧
    (([10, 20, 30] : List Nat) ≠ [] →
      (∀ c, (some 99 : Option Nat) = some c → c ∉ ([10, 20, 30] : List Nat)) →
      focus_next [10, 20, 30] (some 99) true =
        some (([10, 20, 30] : List Nat).getD 0 0)) :=
  focus_next_fallback [10, 20, 30] (some 99) true

end Frameless
